import Mathlib

set_option linter.unusedVariables false

/-!
Shallow embedding of `src/app.py` (AI Research Paper Analyzer, a Streamlit
app that uploads PDFs, analyzes them through the Hugging Face inference API
and compares the resulting paper records).

Python strings are modelled as Lean `String`s; the Python string
operations used by the app (`strip`, slicing `[:n]`, `startswith`,
`split('\n')`, `len`, truthiness) are given explicit, executable
counterparts below, operating on the underlying character list so that
every definition evaluates by kernel reduction.

The network is modelled by an explicit outcome value (`HttpOutcome`): the
HTTP status code together with the parsed JSON body on a response, or the
exception message when `requests.post` / `response.json()` raises.  The
three inference calls made by the analysis and comparison pipelines are
modelled by an oracle `String → Nat → String` giving, for each
`(prompt, max_length)` pair, the string `query_huggingface` returned.
-/

/-- Python whitespace, as stripped by `str.strip()`. -/
def pyWhitespace (c : Char) : Bool :=
  (c == ' ') || (c == '\t') || (c == '\n') || (c == '\r') || (c == '\x0b') || (c == '\x0c')

def pyStripCore (l : List Char) : List Char :=
  ((l.dropWhile pyWhitespace).reverse.dropWhile pyWhitespace).reverse

/-- Python `s.strip()`. -/
def pyStrip (s : String) : String :=
  ⟨pyStripCore s.data⟩

/-- Python slice `s[:n]` (by code points). -/
def pyTake (s : String) (n : Nat) : String :=
  ⟨s.data.take n⟩

/-- Python slice `s[n:]` (by code points). -/
def pyDrop (s : String) (n : Nat) : String :=
  ⟨s.data.drop n⟩

/-- Python `len(s)` (code points). -/
def pyLen (s : String) : Nat :=
  s.data.length

/-- Python `s.startswith(pre)`. -/
def pyStartswith (s pre : String) : Bool :=
  List.isPrefixOf pre.data s.data

def splitNlCore : List Char → List (List Char)
  | [] => [[]]
  | c :: rest =>
    let r := splitNlCore rest
    if c = '\n' then [] :: r
    else
      match r with
      | [] => [[c]]
      | h :: t => (c :: h) :: t

/-- Python `s.split('\n')`. -/
def pySplitNl (s : String) : List String :=
  (splitNlCore s.data).map String.mk

/-- One element of the parsed JSON array returned by the inference API:
an object whose `generated_text` field may be absent (`.get` then yields
the default `""`). -/
structure HFItem where
  generated_text : Option String
deriving Repr, DecidableEq

/-- Outcome of the `requests.post` call in `query_huggingface`:
either a response carrying a status code and (for status 200) the parsed
JSON body — `some items` when the body parsed to a JSON list of objects,
`none` when it was valid JSON of another shape — or an exception carrying
`str(e)`. -/
inductive HttpOutcome where
  | response (status : Nat) (body : Option (List HFItem))
  | exception (msg : String)
deriving Repr, DecidableEq

/-- Lines 58-62 of `src/app.py`: the handling of the `generated_text`
value `raw` of the first element of a well-shaped 200 response — strip,
remove the echoed prompt prefix if present, fall back to
`"No response generated"` when nothing is left. -/
def successText (prompt raw : String) : String :=
  let g0 := pyStrip raw
  let g1 := if pyStartswith g0 prompt then pyStrip (pyDrop g0 (pyLen prompt)) else g0
  if g1 = "" then "No response generated" else g1

/-- `query_huggingface(prompt, max_length)` from `src/app.py` lines 40-67,
as a function of the network outcome. -/
def query_huggingface (prompt : String) (maxLength : Nat) (outcome : HttpOutcome) : String :=
  match outcome with
  | .exception msg => "Error querying API: " ++ msg
  | .response status body =>
    if status = 200 then
      match body with
      | some (item :: _) => successText prompt (item.generated_text.getD "")
      | _ => "Invalid response format"
    else
      "API Error: " ++ toString status

/-- `extract_pdf_text(pdf_file)` from `src/app.py` lines 70-78.  The
`pypdf` interaction is modelled by its result: `.ok pages` when reading
succeeds with the given per-page extracted texts, `.error e` when any
step of the `try` block raises. -/
def extract_pdf_text (pdf : Except String (List String)) : String :=
  match pdf with
  | .ok pages => pyTake (String.join pages) 5000
  | .error _ => "Error extracting PDF text"

/-- One entry of a `PaperRecord`'s `sections` list. -/
structure PaperSection where
  title : String
  summary : String
deriving Repr, DecidableEq

/-- The dictionary built by `analyze_paper` (`src/app.py` lines 108-125). -/
structure PaperRecord where
  id : Nat
  title : String
  authors : List String
  abstract : String
  year : Nat
  executive_summary : String
  key_findings : List String
  methodology : String
  sections : List PaperSection
  keywords : List String
  category : String
  status : String
deriving Repr, DecidableEq

/-- The three prompt templates of `analyze_paper` (lines 85-100). -/
def summaryPrompt (title text : String) : String :=
  "Provide a brief executive summary (100-150 words) of this research paper:\nTitle: "
    ++ title ++ "\nContent: " ++ pyTake text 1000 ++ "\nSummary:"

def findingsPrompt (title text : String) : String :=
  "List 3-5 key findings from this research paper in bullet points:\nTitle: "
    ++ title ++ "\nContent: " ++ pyTake text 1000 ++ "\nKey Findings:"

def methodologyPrompt (title text : String) : String :=
  "Describe the research methodology used in this paper (50-100 words):\nTitle: "
    ++ title ++ "\nContent: " ++ pyTake text 1000 ++ "\nMethodology:"

/-- Line 106 / line 150: `response.strip() if response else "N/A"`. -/
def cleanResp (r : String) : String :=
  if r = "" then "N/A" else pyStrip r

/-- Line 115 / line 167: `[f.strip() for f in s.split('\n') if f.strip()]`. -/
def nonBlankLines (s : String) : List String :=
  (pySplitNl s).filterMap fun f =>
    let t := pyStrip f
    if t = "" then none else some t

/-- `analyze_paper(title, text)` from `src/app.py` lines 81-125.  `oracle`
gives the string returned by `query_huggingface` for each
`(prompt, max_length)` call; `papers` is the current
`st.session_state.papers`, read at line 109 to assign the id. -/
def analyze_paper (oracle : String → Nat → String) (papers : List PaperRecord)
    (title text : String) : PaperRecord :=
  let es := cleanResp (oracle (summaryPrompt title text) 300)
  let kf := cleanResp (oracle (findingsPrompt title text) 300)
  let mt := cleanResp (oracle (methodologyPrompt title text) 300)
  { id := papers.length + 1
    title := title
    authors := ["AI Extracted"]
    abstract := if text = "" then "No content" else pyTake text 300
    year := 2024
    executive_summary := es
    key_findings := nonBlankLines kf
    methodology := mt
    sections := [⟨"Abstract", pyTake text 200⟩, ⟨"Methodology", mt⟩, ⟨"Findings", kf⟩]
    keywords := ["AI", "Research"]
    category := "Computer Science"
    status := "completed" }

/-- One entry of `analysis.agreements` (lines 156-162). -/
structure Agreement where
  title : String
  description : String
  papers : List String
deriving Repr, DecidableEq

/-- One entry of `analysis.contradictions` (lines 163-169). -/
structure Contradiction where
  title : String
  description : String
  conflicting_views : List String
deriving Repr, DecidableEq

/-- One entry of `analysis.research_gaps` (lines 170-175). -/
structure ResearchGap where
  gap : String
  potential_impact : String
deriving Repr, DecidableEq

/-- One entry of `analysis.unique_contributions` (lines 176-179). -/
structure Contribution where
  paper : String
  contribution : String
deriving Repr, DecidableEq

/-- The `analysis` dictionary of a comparison result (lines 154-180). -/
structure ComparisonAnalysis where
  common_themes : List String
  agreements : List Agreement
  contradictions : List Contradiction
  research_gaps : List ResearchGap
  unique_contributions : List Contribution
deriving Repr, DecidableEq

/-- The dictionary returned by `compare_papers` (lines 152-181). -/
structure ComparisonRecord where
  papers : List PaperRecord
  analysis : ComparisonAnalysis
deriving Repr, DecidableEq

/-- Line 131: the joined `papers_text` block over the selected papers. -/
def papersBlock (ps : List PaperRecord) : String :=
  String.intercalate "\n" (ps.map fun p => p.title ++ ": " ++ pyTake p.executive_summary 200)

/-- The three prompt templates of `compare_papers` (lines 133-145). -/
def agreementsPrompt (ps : List PaperRecord) : String :=
  "Find 2-3 areas of agreement between these research papers:\n" ++ papersBlock ps
    ++ "\nAgreements:"

def contradictionsPrompt (ps : List PaperRecord) : String :=
  "Identify any contradictions or differences in these papers:\n" ++ papersBlock ps
    ++ "\nContradictions:"

def gapsPrompt (ps : List PaperRecord) : String :=
  "What research gaps can be identified from these papers?\n" ++ papersBlock ps
    ++ "\nResearch Gaps:"

/-- `compare_papers(selected_papers)` from `src/app.py` lines 128-181,
with the inference calls given by `oracle`. -/
def compare_papers (oracle : String → Nat → String)
    (selected_papers : List PaperRecord) : ComparisonRecord :=
  let ag := cleanResp (oracle (agreementsPrompt selected_papers) 400)
  let ct := cleanResp (oracle (contradictionsPrompt selected_papers) 400)
  let gp := cleanResp (oracle (gapsPrompt selected_papers) 400)
  { papers := selected_papers
    analysis :=
      { common_themes := ["AI", "Research", "Analysis"]
        agreements := [⟨"Common Research Focus", ag, selected_papers.map PaperRecord.title⟩]
        contradictions := [⟨"Methodological Differences", ct, nonBlankLines ct⟩]
        research_gaps := [⟨gp, "Addressing these gaps could advance the field"⟩]
        unique_contributions :=
          selected_papers.map fun p => ⟨p.title, pyTake p.executive_summary 100⟩ } }

/-- The per-session Streamlit state initialized at lines 33-37:
`st.session_state.papers` and `st.session_state.comparison_result`. -/
structure AppState where
  papers : List PaperRecord
  comparison_result : Option ComparisonRecord
deriving Repr, DecidableEq

def initState : AppState :=
  { papers := [], comparison_result := none }

/-- One iteration of the upload loop (lines 240-245): extract, analyze,
append to `st.session_state.papers`. -/
def uploadAction (oracle : String → Nat → String) (s : AppState)
    (title text : String) : AppState :=
  { s with papers := s.papers ++ [analyze_paper oracle s.papers title text] }

/-- The compare-button handler on the Compare Papers page (lines 256-266):
the multiselect is only rendered when at least two papers exist, the
button only when at least two titles are selected; pressing it stores
`compare_papers` applied to every stored paper whose title is among the
selected titles. -/
def comparePage (oracle : String → Nat → String) (s : AppState)
    (selected_titles : List String) : AppState :=
  if 2 ≤ s.papers.length ∧ 2 ≤ selected_titles.length then
    { s with
      comparison_result :=
        some (compare_papers oracle
          (s.papers.filter fun p => decide (p.title ∈ selected_titles))) }
  else s

/-- The New Comparison button (lines 300-302). -/
def resetComparison (s : AppState) : AppState :=
  { s with comparison_result := none }

/-- One user action on the app, as a step relation.  The side conditions
on `compare` model what the Streamlit multiselect widget guarantees about
its return value: the selected titles are distinct options drawn from the
offered `titles` list, and `max_selections=5` caps them at five. -/
inductive Step (oracle : String → Nat → String) : AppState → AppState → Prop where
  | upload (s : AppState) (title text : String) :
      Step oracle s (uploadAction oracle s title text)
  | compare (s : AppState) (sel : List String)
      (hsub : ∀ t ∈ sel, t ∈ s.papers.map PaperRecord.title)
      (hnd : sel.Nodup) (hmax : sel.length ≤ 5) :
      Step oracle s (comparePage oracle s sel)
  | reset (s : AppState) :
      Step oracle s (resetComparison s)

/-- States reachable from the fresh session state. -/
inductive Reachable (oracle : String → Nat → String) : AppState → Prop where
  | init : Reachable oracle initState
  | step {s s' : AppState} : Reachable oracle s → Step oracle s s' → Reachable oracle s'

/-- Modelled from the spec: the `st.cache_data` memoization wrapping
`query_huggingface` (line 40).  The decorator's caching semantics are
Streamlit-library behavior, not part of this repository's source; the
spec describes it as an exact-match cache keyed on the argument pair
`(prompt, max_new_tokens)` living for the process lifetime. -/
structure CacheState where
  entries : List ((String × Nat) × String)
deriving Repr, DecidableEq

def lookupCache (c : CacheState) (k : String × Nat) : Option String :=
  (c.entries.find? fun e => decide (e.1 = k)).map Prod.snd

/-- Modelled from the spec: one call to the cached inference client.
`net` gives the network outcome a fresh HTTP request would see.  Returns
the string handed to the caller, the cache afterwards, and whether a
network round-trip happened. -/
def cachedQuery (net : String → Nat → HttpOutcome) (c : CacheState)
    (prompt : String) (maxLength : Nat) : String × CacheState × Bool :=
  match lookupCache c (prompt, maxLength) with
  | some v => (v, c, false)
  | none =>
    let r := query_huggingface prompt maxLength (net prompt maxLength)
    (r, ⟨c.entries ++ [((prompt, maxLength), r)]⟩, true)

/-- A fixed concrete inference oracle, used to instantiate theorems with
hypotheses at concrete states. -/
def oracle0 : String → Nat → String := fun _ _ => "ok"

/-- A concrete session: upload papers titled `"A"` and `"B"`, then
compare them.  Used to instantiate the session-invariant theorems. -/
def stateAB : AppState :=
  comparePage oracle0
    (uploadAction oracle0 (uploadAction oracle0 initState "A" "ta") "B" "tb")
    ["A", "B"]

/-- A concrete session with a duplicated title: upload two papers titled
`"A"` and one titled `"B"`, then compare the titles `"A"` and `"B"`. -/
def stateAAB : AppState :=
  comparePage oracle0
    (uploadAction oracle0
      (uploadAction oracle0 (uploadAction oracle0 initState "A" "t1") "A" "t2")
      "B" "t3")
    ["A", "B"]

/-- A concrete session after two uploads (titles `"A"` then `"B"`). -/
def stateUp2 : AppState :=
  uploadAction oracle0 (uploadAction oracle0 initState "A" "ta") "B" "tb"

example : pyStrip "  ab c  " = "ab c" := by decide
example : pyTake "hello" 3 = "hel" := by decide
example : pySplitNl "a\n\nb" = ["a", "", "b"] := by decide
example : nonBlankLines "a\n \nb" = ["a", "b"] := by decide
example :
    query_huggingface "p" 300 (.response 200 (some [⟨some "p  qq"⟩])) = "qq" := by decide
example :
    query_huggingface "a" 300 (.response 200 (some [⟨some "aab"⟩])) = "ab" := by decide
example : query_huggingface "a" 300 (.response 503 none) = "API Error: 503" := by decide
example : (analyze_paper (fun _ _ => "r") [] "T" "").abstract = "No content" := by decide

theorem pyLen_pos_of_ne_empty (s : String) (h : s ≠ "") : 0 < pyLen s := by
  cases s with
  | mk data =>
    cases data with
    | nil => exact absurd (by decide) h
    | cons c cs => simp [pyLen]

theorem append_pyLen_pos (a b : String) (h : 0 < pyLen a) : 0 < pyLen (a ++ b) := by
  simp only [pyLen, String.data_append, List.length_append] at h ⊢
  omega

theorem successText_pyLen_pos (prompt raw : String) : 0 < pyLen (successText prompt raw) := by
  unfold successText
  dsimp only
  split
  all_goals split
  · decide
  · next hne => exact pyLen_pos_of_ne_empty _ hne
  · decide
  · next hne => exact pyLen_pos_of_ne_empty _ hne

/-- C1 (counterexample): analyzing a paper whose extracted text is the
empty string yields `abstract = "No content"`, not `abstract = ""` as the
claim states. -/
theorem analyze_paper_abstract_cex :
    (analyze_paper (fun _ _ => "resp") [] "T" "").abstract = "No content" ∧
    ("No content" : String) ≠ "" := by
  refine ⟨rfl, by decide⟩

/-- C1 (amended): the `abstract` field of the record returned by
`analyze_paper` equals the first 300 characters of the extracted text
whenever that text is non-empty; when the extracted text is the empty
string, `abstract` is the placeholder `"No content"`. -/
theorem analyze_paper_abstract_spec (oracle : String → Nat → String)
    (papers : List PaperRecord) (title text : String) (h : text ≠ "") :
    (analyze_paper oracle papers title text).abstract = pyTake text 300 ∧
    (analyze_paper oracle papers title "").abstract = "No content" := by
  constructor
  · simp [analyze_paper, h]
  · rfl

theorem analyze_paper_abstract_spec_witness :
    ("hello" : String) ≠ "" ∧
    ((analyze_paper oracle0 [] "T" "hello").abstract = pyTake "hello" 300 ∧
     (analyze_paper oracle0 [] "T" "").abstract = "No content") :=
  ⟨by decide, analyze_paper_abstract_spec oracle0 [] "T" "hello" (by decide)⟩

/-- C2: for every oracle (in particular when every inference call returned
an error string), every current paper list and every title and text,
`analyze_paper` returns a record with `status = "completed"`; it never
returns any other status and, being a total function of the inference
outcomes, never aborts on an inference error. -/
theorem analyze_paper_status_completed (oracle : String → Nat → String)
    (papers : List PaperRecord) (title text : String) :
    (analyze_paper oracle papers title text).status = "completed" := rfl

/-- C3: `extract_pdf_text` either succeeds and returns the first 5000
characters of the concatenated per-page text (so its length is at most
5000), or the extraction failed and it returns exactly the literal string
`"Error extracting PDF text"`; no other outcome exists, so no extraction
exception reaches the caller. -/
theorem extract_pdf_text_spec (pdf : Except String (List String)) :
    (∃ pages, pdf = Except.ok pages ∧
      extract_pdf_text pdf = pyTake (String.join pages) 5000 ∧
      pyLen (extract_pdf_text pdf) ≤ 5000) ∨
    (∃ e, pdf = Except.error e ∧
      extract_pdf_text pdf = "Error extracting PDF text") := by
  cases pdf with
  | ok pages =>
    refine Or.inl ⟨pages, rfl, rfl, ?_⟩
    simp [extract_pdf_text, pyTake, pyLen]
  | error e => exact Or.inr ⟨e, rfl, rfl⟩

/-- C5: on a non-200 response `query_huggingface` returns the string
`"API Error: <status>"`, which contains the word `"Error"` and the
numeric status code; on any exception it returns
`"Error querying API: <message>"`, which contains the word `"Error"` and
the exception message.  In both cases a plain string is returned, so no
exception propagates. -/
theorem query_huggingface_error_spec (prompt : String) (n status : Nat)
    (body : Option (List HFItem)) (msg : String) (h : status ≠ 200) :
    (query_huggingface prompt n (.response status body)
        = "API Error: " ++ toString status ∧
     (∃ a b, query_huggingface prompt n (.response status body)
        = a ++ "Error" ++ b) ∧
     (∃ a b, query_huggingface prompt n (.response status body)
        = a ++ toString status ++ b)) ∧
    (query_huggingface prompt n (.exception msg)
        = "Error querying API: " ++ msg ∧
     (∃ a b, query_huggingface prompt n (.exception msg)
        = a ++ "Error" ++ b) ∧
     (∃ a b, query_huggingface prompt n (.exception msg)
        = a ++ msg ++ b)) := by
  have hq : query_huggingface prompt n (.response status body)
      = "API Error: " ++ toString status := by
    simp [query_huggingface, h]
  refine ⟨⟨hq, ⟨"API ", ": " ++ toString status, ?_⟩, ⟨"API Error: ", "", ?_⟩⟩,
    rfl, ⟨"", " querying API: " ++ msg, ?_⟩, ⟨"Error querying API: ", "", ?_⟩⟩
  · rw [hq, String.append_assoc]
    show "API Error: " ++ toString status = "API " ++ ("Error" ++ (": " ++ toString status))
    rw [← String.append_assoc, ← String.append_assoc]
    rfl
  · rw [hq, String.append_empty]
  · show "Error querying API: " ++ msg = "" ++ "Error" ++ (" querying API: " ++ msg)
    rw [String.empty_append, ← String.append_assoc]
    rfl
  · show "Error querying API: " ++ msg = "Error querying API: " ++ msg ++ ""
    rw [String.append_empty]

theorem query_huggingface_error_spec_witness :
    (404 : Nat) ≠ 200 ∧
    ((query_huggingface "p" 300 (.response 404 none) = "API Error: " ++ toString 404 ∧
      (∃ a b, query_huggingface "p" 300 (.response 404 none) = a ++ "Error" ++ b) ∧
      (∃ a b, query_huggingface "p" 300 (.response 404 none) = a ++ toString 404 ++ b)) ∧
     (query_huggingface "p" 300 (.exception "timeout") = "Error querying API: " ++ "timeout" ∧
      (∃ a b, query_huggingface "p" 300 (.exception "timeout") = a ++ "Error" ++ b) ∧
      (∃ a b, query_huggingface "p" 300 (.exception "timeout") = a ++ "timeout" ++ b))) :=
  ⟨by decide, query_huggingface_error_spec "p" 300 404 none "timeout" (by decide)⟩

/-- C10: whatever the HTTP outcome (valid 200 body, mismatched shape,
non-200 status, or exception), the string returned by
`query_huggingface` has positive length: the client never returns the
empty string. -/
theorem query_huggingface_ne_empty (prompt : String) (n : Nat) (outcome : HttpOutcome) :
    0 < pyLen (query_huggingface prompt n outcome) := by
  cases outcome with
  | exception msg => exact append_pyLen_pos _ _ (by decide)
  | response status body =>
    by_cases h : status = 200
    · subst h
      match body with
      | none => simp only [query_huggingface]; norm_num; decide
      | some [] => simp only [query_huggingface]; norm_num; decide
      | some (item :: rest) =>
        simpa [query_huggingface] using successText_pyLen_pos prompt (item.generated_text.getD "")
    · simpa [query_huggingface, h] using append_pyLen_pos "API Error: " (toString status) (by decide)

/-- C4 (counterexample): with prompt `"a"` and raw model output `"aab"`,
the raw output begins with the prompt, yet the returned string `"ab"`
still begins with the prompt prefix `"a"`; moreover a non-empty array
whose first object lacks `generated_text` yields
`"No response generated"`, not `"Invalid response format"`. -/
theorem query_huggingface_success_cex :
    (query_huggingface "a" 300 (.response 200 (some [⟨some "aab"⟩])) = "ab" ∧
     pyStartswith "ab" "a" = true) ∧
    (query_huggingface "p" 300 (.response 200 (some [⟨none⟩])) = "No response generated" ∧
     ("No response generated" : String) ≠ "Invalid response format") := by
  refine ⟨⟨by decide, by decide⟩, by decide, by decide⟩

/-- C4 (amended): on an HTTP 200 response whose body is a non-empty JSON
array of objects: if the whitespace-stripped raw output begins with the
prompt, the result is the whitespace-stripped remainder after removing
one copy of the prompt prefix, so — provided the prompt is non-empty and
that remainder is non-empty and does not itself begin with the prompt —
the returned string does not begin with the prompt prefix; if the text
left after the optional echo-strip and whitespace-stripping is empty
(in particular when the raw output is only the echoed prompt, or the
first object lacks `generated_text`), the result is
`"No response generated"`; and if the body is not a non-empty array, the
result is `"Invalid response format"`. -/
theorem query_huggingface_success_spec (prompt : String) (n : Nat)
    (item : HFItem) (rest : List HFItem)
    (hpre : pyStartswith (pyStrip (item.generated_text.getD "")) prompt = true)
    (hp : prompt ≠ "")
    (hrem : pyStrip (pyDrop (pyStrip (item.generated_text.getD "")) (pyLen prompt)) ≠ "")
    (hnp : pyStartswith
      (pyStrip (pyDrop (pyStrip (item.generated_text.getD "")) (pyLen prompt))) prompt
        = false) :
    (query_huggingface prompt n (.response 200 (some (item :: rest)))
        = pyStrip (pyDrop (pyStrip (item.generated_text.getD "")) (pyLen prompt)) ∧
     pyStartswith (query_huggingface prompt n (.response 200 (some (item :: rest)))) prompt
        = false) ∧
    (∀ item2 : HFItem, ∀ rest2 : List HFItem,
       (if pyStartswith (pyStrip (item2.generated_text.getD "")) prompt
        then pyStrip (pyDrop (pyStrip (item2.generated_text.getD "")) (pyLen prompt))
        else pyStrip (item2.generated_text.getD "")) = "" →
       query_huggingface prompt n (.response 200 (some (item2 :: rest2)))
         = "No response generated") ∧
    (query_huggingface prompt n (.response 200 none) = "Invalid response format" ∧
     query_huggingface prompt n (.response 200 (some [])) = "Invalid response format") := by
  have hq : query_huggingface prompt n (.response 200 (some (item :: rest)))
      = successText prompt (item.generated_text.getD "") := by
    simp [query_huggingface]
  have hs : successText prompt (item.generated_text.getD "")
      = pyStrip (pyDrop (pyStrip (item.generated_text.getD "")) (pyLen prompt)) := by
    unfold successText
    dsimp only
    rw [if_pos hpre, if_neg hrem]
  refine ⟨⟨hq.trans hs, ?_⟩, ?_, by simp [query_huggingface], by simp [query_huggingface]⟩
  · rw [hq.trans hs]
    exact hnp
  · intro item2 rest2 hg1
    have hq2 : query_huggingface prompt n (.response 200 (some (item2 :: rest2)))
        = successText prompt (item2.generated_text.getD "") := by
      simp [query_huggingface]
    rw [hq2]
    unfold successText
    dsimp only
    rw [hg1]
    simp

theorem query_huggingface_success_spec_witness :
    (pyStartswith (pyStrip ((some "p  qq").getD "")) "p" = true ∧
     ("p" : String) ≠ "" ∧
     pyStrip (pyDrop (pyStrip ((some "p  qq").getD "")) (pyLen "p")) ≠ "" ∧
     pyStartswith (pyStrip (pyDrop (pyStrip ((some "p  qq").getD "")) (pyLen "p"))) "p"
       = false) ∧
    ((query_huggingface "p" 300 (.response 200 (some [⟨some "p  qq"⟩]))
        = pyStrip (pyDrop (pyStrip ((⟨some "p  qq"⟩ : HFItem).generated_text.getD ""))
            (pyLen "p")) ∧
      pyStartswith
        (query_huggingface "p" 300 (.response 200 (some [⟨some "p  qq"⟩]))) "p" = false) ∧
     (∀ item2 : HFItem, ∀ rest2 : List HFItem,
        (if pyStartswith (pyStrip (item2.generated_text.getD "")) "p"
         then pyStrip (pyDrop (pyStrip (item2.generated_text.getD "")) (pyLen "p"))
         else pyStrip (item2.generated_text.getD "")) = "" →
        query_huggingface "p" 300 (.response 200 (some (item2 :: rest2)))
          = "No response generated") ∧
     (query_huggingface "p" 300 (.response 200 none) = "Invalid response format" ∧
      query_huggingface "p" 300 (.response 200 (some [])) = "Invalid response format")) :=
  ⟨⟨by decide, by decide, by decide, by decide⟩,
    query_huggingface_success_spec "p" 300 ⟨some "p  qq"⟩ []
      (by decide) (by decide) (by decide) (by decide)⟩

/-- C6: `compare_papers` returns a record holding exactly the input list
of papers, and its `analysis.unique_contributions` pairs each input
paper's title with the first 100 characters of that paper's executive
summary — a purely local computation whose value is the same for every
inference oracle. -/
theorem compare_papers_spec (oracle : String → Nat → String) (ps : List PaperRecord)
    (h2 : 2 ≤ ps.length) (h5 : ps.length ≤ 5) :
    (compare_papers oracle ps).papers = ps ∧
    (compare_papers oracle ps).analysis.unique_contributions
      = ps.map (fun p => ⟨p.title, pyTake p.executive_summary 100⟩) ∧
    ∀ oracle2 : String → Nat → String,
      (compare_papers oracle2 ps).analysis.unique_contributions
        = (compare_papers oracle ps).analysis.unique_contributions :=
  ⟨rfl, rfl, fun _ => rfl⟩

theorem compare_papers_spec_witness :
    (2 ≤ [analyze_paper oracle0 [] "A" "ta",
          analyze_paper oracle0 [analyze_paper oracle0 [] "A" "ta"] "B" "tb"].length ∧
     [analyze_paper oracle0 [] "A" "ta",
      analyze_paper oracle0 [analyze_paper oracle0 [] "A" "ta"] "B" "tb"].length ≤ 5) ∧
    ((compare_papers oracle0
        [analyze_paper oracle0 [] "A" "ta",
         analyze_paper oracle0 [analyze_paper oracle0 [] "A" "ta"] "B" "tb"]).papers
      = [analyze_paper oracle0 [] "A" "ta",
         analyze_paper oracle0 [analyze_paper oracle0 [] "A" "ta"] "B" "tb"] ∧
     (compare_papers oracle0
        [analyze_paper oracle0 [] "A" "ta",
         analyze_paper oracle0 [analyze_paper oracle0 [] "A" "ta"] "B" "tb"]).analysis.unique_contributions
      = [analyze_paper oracle0 [] "A" "ta",
         analyze_paper oracle0 [analyze_paper oracle0 [] "A" "ta"] "B" "tb"].map
          (fun p => ⟨p.title, pyTake p.executive_summary 100⟩) ∧
     ∀ oracle2 : String → Nat → String,
       (compare_papers oracle2
          [analyze_paper oracle0 [] "A" "ta",
           analyze_paper oracle0 [analyze_paper oracle0 [] "A" "ta"] "B" "tb"]).analysis.unique_contributions
         = (compare_papers oracle0
            [analyze_paper oracle0 [] "A" "ta",
             analyze_paper oracle0 [analyze_paper oracle0 [] "A" "ta"] "B" "tb"]).analysis.unique_contributions) :=
  ⟨⟨by decide, by decide⟩,
    compare_papers_spec oracle0
      [analyze_paper oracle0 [] "A" "ta",
       analyze_paper oracle0 [analyze_paper oracle0 [] "A" "ta"] "B" "tb"]
      (by decide) (by decide)⟩

/-- C9: within one cache lifetime, a second call to the cached inference
client with the same `(prompt, max_new_tokens)` key returns exactly the
string the first call returned, leaves the cache unchanged, and performs
no network round-trip — regardless of what the network would answer the
second time. -/
theorem cachedQuery_memoized (net net2 : String → Nat → HttpOutcome)
    (c : CacheState) (prompt : String) (n : Nat) :
    cachedQuery net2 (cachedQuery net c prompt n).2.1 prompt n
      = ((cachedQuery net c prompt n).1, (cachedQuery net c prompt n).2.1, false) := by
  unfold cachedQuery
  cases h : lookupCache c (prompt, n) with
  | some v => simp [h]
  | none =>
    have hfind : c.entries.find? (fun e => decide (e.1 = (prompt, n))) = none := by
      unfold lookupCache at h
      exact Option.map_eq_none'.mp h
    simp only [h]
    have h2 : lookupCache
        ⟨c.entries ++ [((prompt, n), query_huggingface prompt n (net prompt n))]⟩
        (prompt, n)
        = some (query_huggingface prompt n (net prompt n)) := by
      unfold lookupCache
      simp [List.find?_append, hfind]
    simp [h2]

theorem map_filter_comp {α β : Type} (f : α → β) (d : β → Bool) (l : List α) :
    (l.filter fun a => d (f a)).map f = (l.map f).filter d := by
  induction l with
  | nil => rfl
  | cons a l ih => cases h : d (f a) <;> simp [List.filter_cons, h, ih]

theorem length_le_filter_mem (ts l : List String) (hnd : ts.Nodup)
    (hsub : ∀ x ∈ ts, x ∈ l) :
    ts.length ≤ (l.filter fun x => decide (x ∈ ts)).length := by
  have h1 : ts ⊆ l.filter fun x => decide (x ∈ ts) := by
    intro x hx
    rw [List.mem_filter]
    exact ⟨hsub x hx, by simpa using hx⟩
  exact (List.subperm_of_subset hnd h1).length_le

theorem filter_mem_length_le (ts l : List String) (hl : l.Nodup) :
    (l.filter fun x => decide (x ∈ ts)).length ≤ ts.length := by
  have h1 : (l.filter fun x => decide (x ∈ ts)) ⊆ ts := by
    intro x hx
    have h2 := (List.mem_filter.mp hx).2
    simpa using h2
  exact (List.subperm_of_subset (hl.filter _) h1).length_le

theorem reachable_comparison_shape (oracle : String → Nat → String) {s : AppState}
    (hr : Reachable oracle s) :
    ∀ c, s.comparison_result = some c →
      ∃ (prev : List PaperRecord) (sel : List String),
        (∃ t, prev ++ t = s.papers) ∧ sel.Nodup ∧ sel.length ≤ 5 ∧
        2 ≤ sel.length ∧ (∀ x ∈ sel, x ∈ prev.map PaperRecord.title) ∧
        c.papers = prev.filter fun p => decide (p.title ∈ sel) := by
  induction hr with
  | init => intro c hc; exact absurd hc (by simp [initState])
  | step hr hstep ih =>
    rename_i s s'
    cases hstep with
    | upload title text =>
      intro c hc
      obtain ⟨prev, sel, ⟨t, ht⟩, hnd, h5, h2, hsub, hcp⟩ := ih c hc
      exact ⟨prev, sel,
        ⟨t ++ [analyze_paper oracle s.papers title text], by simp [uploadAction, ← ht]⟩,
        hnd, h5, h2, hsub, hcp⟩
    | compare sel hsub hnd hmax =>
      intro c hc
      by_cases hguard : 2 ≤ s.papers.length ∧ 2 ≤ sel.length
      · simp only [comparePage, if_pos hguard] at hc ⊢
        have hc' : compare_papers oracle
            (s.papers.filter fun p => decide (p.title ∈ sel)) = c := by
          simpa using hc
        refine ⟨s.papers, sel, ⟨[], by simp⟩, hnd, hmax, hguard.2, hsub, ?_⟩
        rw [← hc']
        rfl
      · simp only [comparePage, if_neg hguard] at hc ⊢
        exact ih c hc
    | reset =>
      intro c hc
      exact absurd hc (by simp [resetComparison])

/-- C7 (amended): in every reachable session state whose stored papers
carry pairwise-distinct titles, any ComparisonRecord held in the session
store was produced from between 2 and 5 papers with distinct titles, all
drawn from the stored PaperRecords; and selecting 1 or 0 titles on the
Compare page leaves the state unchanged, so it never produces a
ComparisonRecord. -/
theorem comparison_record_invariant (oracle : String → Nat → String) (s : AppState)
    (hr : Reachable oracle s)
    (hnd : (s.papers.map PaperRecord.title).Nodup) :
    (∀ c, s.comparison_result = some c →
       2 ≤ c.papers.length ∧ c.papers.length ≤ 5 ∧
       (c.papers.map PaperRecord.title).Nodup ∧
       ∀ p ∈ c.papers, p ∈ s.papers) ∧
    (∀ sel : List String, sel.length < 2 → comparePage oracle s sel = s) := by
  constructor
  · intro c hc
    obtain ⟨prev, sel, ⟨t, ht⟩, hselnd, h5, h2, hsub, hcp⟩ :=
      reachable_comparison_shape oracle hr c hc
    have hprevnd : (prev.map PaperRecord.title).Nodup := by
      rw [← ht, List.map_append] at hnd
      exact hnd.of_append_left
    have hmapeq : c.papers.map PaperRecord.title
        = (prev.map PaperRecord.title).filter fun x => decide (x ∈ sel) := by
      rw [hcp]
      exact map_filter_comp PaperRecord.title (fun x => decide (x ∈ sel)) prev
    have hlen : c.papers.length
        = ((prev.map PaperRecord.title).filter fun x => decide (x ∈ sel)).length := by
      rw [← hmapeq, List.length_map]
    refine ⟨?_, ?_, ?_, ?_⟩
    · calc 2 ≤ sel.length := h2
        _ ≤ ((prev.map PaperRecord.title).filter fun x => decide (x ∈ sel)).length :=
            length_le_filter_mem sel (prev.map PaperRecord.title) hselnd hsub
        _ = c.papers.length := hlen.symm
    · calc c.papers.length
          = ((prev.map PaperRecord.title).filter fun x => decide (x ∈ sel)).length := hlen
        _ ≤ sel.length := filter_mem_length_le sel (prev.map PaperRecord.title) hprevnd
        _ ≤ 5 := h5
    · rw [hmapeq]
      exact hprevnd.filter _
    · intro p hp
      rw [hcp] at hp
      have hp2 : p ∈ prev := List.mem_of_mem_filter hp
      rw [← ht]
      exact List.mem_append_left t hp2
  · intro sel hsel
    have hng : ¬(2 ≤ s.papers.length ∧ 2 ≤ sel.length) := by
      rintro ⟨h1, h2⟩
      omega
    unfold comparePage
    rw [if_neg hng]

theorem comparison_record_invariant_witness :
    Reachable oracle0 stateAB ∧
    (stateAB.papers.map PaperRecord.title).Nodup ∧
    ((∀ c, stateAB.comparison_result = some c →
        2 ≤ c.papers.length ∧ c.papers.length ≤ 5 ∧
        (c.papers.map PaperRecord.title).Nodup ∧
        ∀ p ∈ c.papers, p ∈ stateAB.papers) ∧
     (∀ sel : List String, sel.length < 2 → comparePage oracle0 stateAB sel = stateAB)) := by
  have hreach : Reachable oracle0 stateAB := by
    unfold stateAB
    exact Reachable.step
      (Reachable.step (Reachable.step Reachable.init (Step.upload initState "A" "ta"))
        (Step.upload _ "B" "tb"))
      (Step.compare _ ["A", "B"] (by decide) (by decide) (by decide))
  exact ⟨hreach, by decide,
    comparison_record_invariant oracle0 stateAB hreach (by decide)⟩

/-- C7 (counterexample): uploading two papers titled `"A"` and one titled
`"B"` and then comparing the selected titles `"A"` and `"B"` is a
reachable session whose stored ComparisonRecord was produced from three
papers with titles `["A", "A", "B"]` — not pairwise distinct — so the
claimed invariant fails as stated. -/
theorem comparison_record_invariant_cex :
    Reachable oracle0 stateAAB ∧
    (stateAAB.comparison_result.map fun c => c.papers.map PaperRecord.title)
      = some ["A", "A", "B"] ∧
    ¬ (["A", "A", "B"] : List String).Nodup := by
  refine ⟨?_, by decide, by decide⟩
  unfold stateAAB
  exact Reachable.step
    (Reachable.step
      (Reachable.step (Reachable.step Reachable.init (Step.upload initState "A" "t1"))
        (Step.upload _ "A" "t2"))
      (Step.upload _ "B" "t3"))
    (Step.compare _ ["A", "B"] (by decide) (by decide) (by decide))

theorem reachable_ids (oracle : String → Nat → String) {s : AppState}
    (hr : Reachable oracle s) :
    s.papers.map PaperRecord.id = List.range' 1 s.papers.length := by
  induction hr with
  | init => rfl
  | step hr hstep ih =>
    rename_i s s'
    cases hstep with
    | upload title text =>
      show (s.papers ++ [analyze_paper oracle s.papers title text]).map PaperRecord.id
        = List.range' 1 (s.papers ++ [analyze_paper oracle s.papers title text]).length
      rw [List.map_append, List.length_append, ih]
      simp [analyze_paper, List.range'_1_concat, Nat.add_comm]
    | compare sel hsub hnd hmax =>
      by_cases hguard : 2 ≤ s.papers.length ∧ 2 ≤ sel.length
      · simp only [comparePage, if_pos hguard]
        exact ih
      · simp only [comparePage, if_neg hguard]
        exact ih
    | reset => exact ih

/-- C8: in every reachable session state the stored paper ids are exactly
`1, 2, …, n`, hence strictly increasing and duplicate-free; each
upload-and-analyze action appends one record whose id is one greater
than the current number of stored papers; and no action removes papers —
every step only extends the stored list on the right. -/
theorem paper_ids_strictly_increasing (oracle : String → Nat → String) (s : AppState)
    (hr : Reachable oracle s) :
    s.papers.map PaperRecord.id = List.range' 1 s.papers.length ∧
    List.Chain' (· < ·) (s.papers.map PaperRecord.id) ∧
    (s.papers.map PaperRecord.id).Nodup ∧
    (∀ title text : String,
       (analyze_paper oracle s.papers title text).id = s.papers.length + 1 ∧
       (uploadAction oracle s title text).papers
         = s.papers ++ [analyze_paper oracle s.papers title text]) ∧
    (∀ s' : AppState, Step oracle s s' → ∃ t, s'.papers = s.papers ++ t) := by
  have hid := reachable_ids oracle hr
  refine ⟨hid, ?_, ?_, fun title text => ⟨rfl, rfl⟩, ?_⟩
  · rw [hid]
    exact (List.pairwise_lt_range' 1 s.papers.length).chain'
  · rw [hid]
    exact List.nodup_range' 1 s.papers.length
  · intro s' hstep
    cases hstep with
    | upload title text => exact ⟨[analyze_paper oracle s.papers title text], rfl⟩
    | compare sel hsub hnd hmax =>
      refine ⟨[], ?_⟩
      unfold comparePage
      split <;> simp
    | reset => exact ⟨[], by simp [resetComparison]⟩

theorem paper_ids_strictly_increasing_witness :
    (stateUp2.papers.map PaperRecord.id = List.range' 1 stateUp2.papers.length ∧
     List.Chain' (· < ·) (stateUp2.papers.map PaperRecord.id) ∧
     (stateUp2.papers.map PaperRecord.id).Nodup ∧
     (∀ title text : String,
        (analyze_paper oracle0 stateUp2.papers title text).id = stateUp2.papers.length + 1 ∧
        (uploadAction oracle0 stateUp2 title text).papers
          = stateUp2.papers ++ [analyze_paper oracle0 stateUp2.papers title text]) ∧
     (∀ s' : AppState, Step oracle0 stateUp2 s' → ∃ t, s'.papers = stateUp2.papers ++ t)) :=
  paper_ids_strictly_increasing oracle0 stateUp2
    (Reachable.step (Reachable.step Reachable.init (Step.upload initState "A" "ta"))
      (Step.upload (uploadAction oracle0 initState "A" "ta") "B" "tb"))
